import Mathlib

/-!
Verification of the gh-setup-git-identity repository.

The library (src/index.js) and the CLI entry point (src/cli.js) are thin
wrappers around two external binaries: the GitHub CLI and git. We embed the
repository code shallowly:

- every captured external invocation is a pure function of an ExecBehavior
  value describing what the external binary did (close with an exit code, or
  fail to spawn), mirroring execCommand in src/index.js;
- interactive invocations are a pure function of an InteractiveBehavior value,
  mirroring execInteractiveCommand;
- the git config store is an explicit GitWorld state threaded through the
  config accessors; the external git binary is modelled with its standard
  contract (reading an unset key exits non-zero, a write either updates the
  store and exits zero or leaves it unchanged and exits non-zero);
- console output and external invocations of the CLI entry point are recorded
  as an explicit event trace; blank-line prints and logger formatting are
  omitted (the spec places logging formatting out of scope).

Fallible repository code returns Except, infallible code returns plain values.
-/

set_option maxHeartbeats 1000000

/-- Result of a captured external command, as resolved by execCommand in
src/index.js: stdout and stderr collected and trimmed, plus an exit code. -/
structure CommandResult where
  stdout : String
  stderr : String
  exitCode : Nat
  deriving Repr, DecidableEq

/-- What the external process did under a captured invocation: either the
close event fired with an exit code (null when killed by a signal), or the
error event fired because the process could not be spawned, with the output
collected so far and the error message. -/
inductive ExecBehavior where
  | closed (stdout stderr : String) (exitCode : Option Nat)
  | spawnError (collected : String) (message : String)
  deriving Repr, DecidableEq

/-- Whitespace trimming at both ends, the semantics of the JS trim calls in
execCommand, written structurally over the character data so that it is
executable in proofs. -/
def strTrim (s : String) : String :=
  { data := ((s.data.dropWhile Char.isWhitespace).reverse.dropWhile
      Char.isWhitespace).reverse }

/-- execCommand from src/index.js, as a function of the external behavior.
On close it resolves with trimmed stdout and stderr and exitCode or 0
(JS: exitCode with null replaced by 0); on a spawn error it resolves with the
collected stdout, the error message as stderr, and exit code 1. It never
rejects the promise. -/
def execCommand : ExecBehavior → CommandResult
  | .closed out err code =>
    { stdout := strTrim out, stderr := strTrim err, exitCode := code.getD 0 }
  | .spawnError collected message =>
    { stdout := strTrim collected, stderr := message, exitCode := 1 }

/-- What the external process did under an interactive invocation. -/
inductive InteractiveBehavior where
  | closed (exitCode : Option Nat)
  | spawnError (message : String)
  deriving Repr, DecidableEq

/-- The exit code resolved by execInteractiveCommand from src/index.js:
the close exit code (null replaced by 0), or 1 when spawning failed. -/
def execInteractiveExit : InteractiveBehavior → Nat
  | .closed code => code.getD 0
  | .spawnError _ => 1

/-- AuthOptions record from src/index.js. -/
structure AuthOptions where
  hostname : String
  scopes : String
  gitProtocol : String
  web : Bool
  withToken : Bool
  skipSshKey : Bool
  insecureStorage : Bool
  clipboard : Bool
  deriving Repr, DecidableEq

/-- defaultAuthOptions from src/index.js. -/
def defaultAuthOptions : AuthOptions :=
  { hostname := "github.com"
    scopes := "repo,workflow,user,read:org,gist"
    gitProtocol := "https"
    web := true
    withToken := false
    skipSshKey := false
    insecureStorage := false
    clipboard := false }

/-- The gh auth login argument list built by runGhAuthLogin in src/index.js
(lines 164 to 200). Each conditional push is one append; a JS string is truthy
exactly when it is nonempty. -/
def buildLoginArgs (o : AuthOptions) : List String :=
  ["auth", "login"]
    ++ (if o.hostname ≠ "" then ["-h", o.hostname] else [])
    ++ (if o.scopes ≠ "" then ["-s", o.scopes] else [])
    ++ (if o.gitProtocol ≠ "" then ["--git-protocol", o.gitProtocol] else [])
    ++ (if o.web && !o.withToken then ["--web"] else [])
    ++ (if o.withToken then ["--with-token"] else [])
    ++ (if o.skipSshKey then ["--skip-ssh-key"] else [])
    ++ (if o.insecureStorage then ["--insecure-storage"] else [])
    ++ (if o.clipboard && o.web && !o.withToken then ["--clipboard"] else [])

/-- The single interactive child invocation performed by runGhAuthLogin:
program, argument list, and the optional string written to its stdin. -/
structure InteractiveCall where
  command : String
  args : List String
  input : Option String
  deriving Repr, DecidableEq

/-- runGhAuthLogin from src/index.js (lines 147 to 216): builds the argument
list, picks the stdin injection (undefined in token mode, the string y newline
otherwise), runs gh interactively, and returns true exactly when the exit
code is zero. The performed call is returned alongside for the trace. -/
def runGhAuthLogin (o : AuthOptions) (beh : InteractiveBehavior) :
    Bool × InteractiveCall :=
  let args := buildLoginArgs o
  let inputValue : Option String := if o.withToken then none else some "y\n"
  let call : InteractiveCall := { command := "gh", args := args, input := inputValue }
  let exitCode := execInteractiveExit beh
  (if exitCode ≠ 0 then false else true, call)

/-- isGhAuthenticated from src/index.js (lines 226 to 241): runs the auth
status command captured and returns false on a non-zero exit code, true
otherwise. It is a total function: it never throws. -/
def isGhAuthenticated (beh : ExecBehavior) : Bool :=
  if (execCommand beh).exitCode ≠ 0 then false else true

/-- Identity record produced by the identity fetcher. -/
structure Identity where
  username : String
  email : String
  deriving Repr, DecidableEq

/-- Behaviors of the two gh api invocations made by the identity fetcher. -/
structure GhEnv where
  userResult : ExecBehavior
  emailsResult : ExecBehavior
  deriving Repr, DecidableEq

/-- getGitHubUsername from src/index.js (lines 251 to 267). -/
def getGitHubUsername (env : GhEnv) : Except String String :=
  let result := execCommand env.userResult
  if result.exitCode ≠ 0 then
    .error ("Failed to get GitHub username: " ++ result.stderr)
  else
    .ok result.stdout

/-- The distinct error message thrown by getGitHubEmail when the email query
succeeds but yields no primary email. -/
def noPrimaryEmailMessage : String :=
  "No primary email found on GitHub account. Please set a primary email in your GitHub settings."

/-- getGitHubEmail from src/index.js (lines 277 to 298): propagates a command
failure, and throws the distinct no-primary-email message when the command
succeeds with an empty (falsy) result. -/
def getGitHubEmail (env : GhEnv) : Except String String :=
  let result := execCommand env.emailsResult
  if result.exitCode ≠ 0 then
    .error ("Failed to get GitHub email: " ++ result.stderr)
  else if result.stdout = "" then
    .error noPrimaryEmailMessage
  else
    .ok result.stdout

/-- getGitHubUserInfo from src/index.js (lines 308 to 315): the two queries
are combined with Promise.all, which fails when either query fails and yields
the pair when both succeed. -/
def getGitHubUserInfo (env : GhEnv) : Except String Identity :=
  match getGitHubUsername env, getGitHubEmail env with
  | .ok username, .ok email => .ok { username := username, email := email }
  | .error e, _ => .error e
  | .ok _, .error e => .error e

/-- The external git config store plus the behavior of the git binary: store
maps a scope flag and key to the stored value, failSet says whether git
rejects a given write, and writeLog records every attempted config write. -/
structure GitWorld where
  store : String → String → Option String
  failSet : String → String → String → Bool
  writeLog : List (String × String × String)

/-- The external git binary handling a config write: on success the store is
updated and the exit code is zero; on failure the store is untouched and the
exit code is non-zero. Either way the attempt is logged. -/
def gitSet (w : GitWorld) (flag key value : String) : CommandResult × GitWorld :=
  if w.failSet flag key value then
    ({ stdout := "", stderr := "error: could not lock config file", exitCode := 1 },
     { store := w.store, failSet := w.failSet,
       writeLog := w.writeLog ++ [(flag, key, value)] })
  else
    ({ stdout := "", stderr := "", exitCode := 0 },
     { store := fun f k => if f = flag ∧ k = key then some value else w.store f k,
       failSet := w.failSet,
       writeLog := w.writeLog ++ [(flag, key, value)] })

/-- The external git binary handling a config read: a stored value is printed
with exit code zero, an unset key exits non-zero (standard git contract). -/
def gitGet (w : GitWorld) (flag key : String) : CommandResult :=
  match w.store flag key with
  | some v => { stdout := v, stderr := "", exitCode := 0 }
  | none => { stdout := "", stderr := "", exitCode := 1 }

/-- The scope flag computation used throughout src/index.js:
the string local selects the local flag, anything else the global flag. -/
def scopeFlagOf (scope : String) : String :=
  if scope = "local" then "--local" else "--global"

/-- setGitConfig from src/index.js (lines 328 to 343): runs the git config
write and throws on a non-zero exit code. The world after the attempt is
returned alongside. -/
def setGitConfig (key value scope : String) (w : GitWorld) :
    Except String Unit × GitWorld :=
  let flag := scopeFlagOf scope
  let rw := gitSet w flag key value
  if rw.1.exitCode ≠ 0 then
    (.error ("Failed to set git config " ++ key ++ ": " ++ rw.1.stderr), rw.2)
  else
    (.ok (), rw.2)

/-- getGitConfig from src/index.js (lines 355 to 374): runs the git config
read and returns null on a non-zero exit code, the value otherwise. It is a
total function into Option: it never throws. -/
def getGitConfig (key scope : String) (w : GitWorld) : Option String :=
  let flag := scopeFlagOf scope
  let result := gitGet w flag key
  if result.exitCode ≠ 0 then none else some result.stdout

/-- setupGitIdentity from src/index.js (lines 386 to 420): fetches the GitHub
identity, returns it immediately in dry-run mode, otherwise writes user.name
then user.email through setGitConfig. Errors propagate; the final world is
returned alongside. -/
def setupGitIdentity (scope : String) (dryRun : Bool) (env : GhEnv) (w : GitWorld) :
    Except String Identity × GitWorld :=
  match getGitHubUserInfo env with
  | .error e => (.error e, w)
  | .ok info =>
    if dryRun then (.ok info, w)
    else
      match setGitConfig "user.name" info.username scope w with
      | (.error e, w1) => (.error e, w1)
      | (.ok _, w1) =>
        match setGitConfig "user.email" info.email scope w1 with
        | (.error e, w2) => (.error e, w2)
        | (.ok _, w2) => (.ok info, w2)

/-- The nullable identity returned by verifyGitIdentity. -/
structure GitIdentity where
  username : Option String
  email : Option String
  deriving Repr, DecidableEq

/-- verifyGitIdentity from src/index.js (lines 431 to 438): reads both config
keys through getGitConfig. It takes no GhEnv: it never queries the external
auth account. -/
def verifyGitIdentity (scope : String) (w : GitWorld) : GitIdentity :=
  { username := getGitConfig "user.name" scope w
    email := getGitConfig "user.email" scope w }

/-- Membership in a conditional singleton block, used to reason about the
conditional pushes of buildLoginArgs. -/
theorem mem_ite_nil {α : Type} {c : Prop} [Decidable c] {l : List α} {x : α} :
    (x ∈ if c then l else []) ↔ c ∧ x ∈ l := by
  by_cases h : c <;> simp [h]

/-- String append acts as list append on the underlying character data. -/
theorem string_data_append (a b : String) : (a ++ b).data = a.data ++ b.data := by
  cases a; cases b; rfl

/-- Two strings whose character data start with different characters are
different, even when the second continues with arbitrary appended text. -/
theorem ne_lit_append {c d : Char} {cs ds : List Char} {s p : String} (x : String)
    (hcd : c ≠ d) (hs : s.data = c :: cs) (hp : p.data = d :: ds) : s ≠ p ++ x := by
  intro he
  have hd2 : s.data = p.data ++ x.data := by rw [he, string_data_append]
  rw [hs, hp, List.cons_append] at hd2
  exact hcd (by injection hd2)

/-- Parsed CLI configuration from src/cli.js. The field for the local flag is
named localFlag because local is a reserved word in Lean; globalFlag matches
for symmetry. All other names follow the source. -/
structure Config where
  globalFlag : Bool
  localFlag : Bool
  verbose : Bool
  dryRun : Bool
  verify : Bool
  repair : Bool
  noAutoLogin : Bool
  hostname : String
  scopes : String
  gitProtocol : String
  web : Bool
  withToken : Bool
  skipSshKey : Bool
  insecureStorage : Bool
  clipboard : Bool
  deriving Repr, DecidableEq

/-- The AuthOptions assembled by main in src/cli.js (lines 243 to 253). -/
def authOptionsOf (c : Config) : AuthOptions :=
  { hostname := c.hostname
    scopes := c.scopes
    gitProtocol := c.gitProtocol
    web := c.web
    withToken := c.withToken
    skipSshKey := c.skipSshKey
    insecureStorage := c.insecureStorage
    clipboard := c.clipboard }

/-- Observable actions of one CLI invocation: the auth status check with its
result, the interactive login invocation, the credential-helper setup
invocation, the verify-mode auth status display, and console lines. Lines
that interpolate configuration values carry the pieces structurally. -/
inductive Event where
  | authCheck (ok : Bool)
  | loginInvoked (call : InteractiveCall)
  | setupGitInvoked (hostname : String)
  | authStatusDisplay
  | outLine (line : String)
  | errLine (line : String)
  | errLoginHint (hostname scopes protocol : String)
  | outLoginHint (hostname scopes protocol : String)
  | outSetupGitHint (hostname : String)
  deriving Repr, DecidableEq

/-- External behaviors supplied to one CLI invocation. -/
structure CliEnv where
  authStatus : ExecBehavior
  login : InteractiveBehavior
  setupGitOk : Bool
  gh : GhEnv
  git : GitWorld

/-- Modelled from the spec: runGhAuthSetupGit is imported by src/cli.js from
the library but its definition is not among the provided sources. Per spec
section 4.3 it runs the credential-helper setup command for a hostname and
returns whether that external command succeeded; we model the outcome as a
boolean supplied by the environment. -/
def runGhAuthSetupGit (ok : Bool) : Bool := ok

/-- Outcome of one CLI invocation: process exit code, event trace, final git
config world. -/
structure MainResult where
  exitCode : Nat
  events : List Event
  git : GitWorld

/-- The trace of runVerify in src/cli.js (lines 134 to 182): display lines,
the interactive auth status display, and the two null-tolerant config reads.
Blank-line prints are omitted. -/
def runVerifyEvents (scope : String) (w : GitWorld) : List Event :=
  let scopeFlag := scopeFlagOf scope
  let identity := verifyGitIdentity scope w
  [Event.outLine "Verifying git identity configuration...",
   Event.outLine "1. GitHub CLI authentication status:",
   Event.outLine "   $ gh auth status",
   Event.authStatusDisplay,
   Event.outLine ("2. Git user.name (" ++ scope ++ "):"),
   Event.outLine ("   $ git config " ++ scopeFlag ++ " user.name")] ++
  (match identity.username with
   | some u => [Event.outLine ("   " ++ u)]
   | none => [Event.outLine "   (not set)"]) ++
  [Event.outLine ("3. Git user.email (" ++ scope ++ "):"),
   Event.outLine ("   $ git config " ++ scopeFlag ++ " user.email")] ++
  (match identity.email with
   | some e => [Event.outLine ("   " ++ e)]
   | none => [Event.outLine "   (not set)"]) ++
  [Event.outLine "Verification complete!"]

/-- The tail of main in src/cli.js (lines 292 to 339): option echo, dry-run
banner, identity setup, result display, and the catch block printing the
error message and exiting 1. -/
def finishSetup (c : Config) (scope : String) (env : CliEnv) (evs : List Event) :
    MainResult :=
  let evs := evs ++ (if c.verbose then [Event.outLine "Options:"] else []) ++
    (if c.dryRun then [Event.outLine "DRY MODE - No actual changes will be made"] else [])
  match setupGitIdentity scope c.dryRun env.gh env.git with
  | (.ok ident, w2) =>
    { exitCode := 0
      events := evs ++
        [Event.outLine (if c.dryRun then "  [DRY MODE] Would configure:" else "  Git configured:"),
         Event.outLine ("    user.name:  " ++ ident.username),
         Event.outLine ("    user.email: " ++ ident.email),
         Event.outLine ("  Scope: " ++ (if scope = "global" then "global (--global)" else "local (--local)"))] ++
        (if !c.dryRun then [Event.outLine "Git identity setup complete!"] else [])
      git := w2 }
  | (.error msg, w2) =>
    { exitCode := 1
      events := evs ++ [Event.errLine ("Error: " ++ msg)] ++
        (if c.verbose then [Event.errLine "Stack trace:"] else [])
      git := w2 }

/-- main from src/cli.js (lines 187 to 340): scope selection, verify mode,
the auth status check, the manual-recovery branch when not authenticated with
repair or no-auto-login set, the auto-login branch, the opportunistic
credential-helper setup, and the identity setup tail. -/
def mainRun (c : Config) (env : CliEnv) : MainResult :=
  let scope := if c.localFlag then "local" else "global"
  if c.verify then
    { exitCode := 0, events := runVerifyEvents scope env.git, git := env.git }
  else
    let authenticated := isGhAuthenticated env.authStatus
    let checked : List Event := [Event.authCheck authenticated]
    let skipAutoLogin := c.repair || c.noAutoLogin
    if !authenticated && skipAutoLogin then
      { exitCode := 1
        events := checked ++
          [Event.errLine "GitHub CLI is not authenticated."] ++
          (if c.repair then
            [Event.errLine "The --repair option requires existing authentication.",
             Event.errLine "Please authenticate first using one of these methods:"]
          else
            [Event.errLine "Automatic login is disabled (--no-auto-login).",
             Event.errLine "Please authenticate manually using one of these methods:"]) ++
          [Event.errLine "  # Option 1: Interactive web-based login",
           Event.errLoginHint c.hostname c.scopes c.gitProtocol,
           Event.errLine "  # Option 2: Token-based login",
           Event.errLine "  echo \"ghp_your_token\" | gh auth login --with-token",
           Event.errLine "  # Option 3: Use GH_TOKEN environment variable",
           Event.errLine "  export GH_TOKEN=\"ghp_your_token\""]
        git := env.git }
    else if !authenticated then
      let notes : List Event :=
        [Event.outLine "GitHub CLI is not authenticated. Starting authentication..."] ++
        (if !c.withToken then
          [Event.outLine "Note: GitHub limits OAuth tokens to 10 per user/application."]
        else [])
      let login := runGhAuthLogin (authOptionsOf c) env.login
      let evs := checked ++ notes ++ [Event.loginInvoked login.2]
      if !login.1 then
        { exitCode := 1
          events := evs ++
            [Event.outLine "Authentication failed. Please try running manually:",
             Event.outLoginHint c.hostname c.scopes c.gitProtocol]
          git := env.git }
      else
        let evs := evs ++ [Event.setupGitInvoked c.hostname] ++
          (if !runGhAuthSetupGit env.setupGitOk then
            [Event.outLine "Warning: Failed to setup git credential helper. You may need to run manually:",
             Event.outSetupGitHint c.hostname]
          else [])
        finishSetup c (if c.localFlag then "local" else "global") env evs
    else
      let evs := checked ++ [Event.setupGitInvoked c.hostname] ++
        (if !runGhAuthSetupGit env.setupGitOk && c.verbose then
          [Event.outLine "Note: Git credential helper may not be configured. Consider running:",
           Event.outSetupGitHint c.hostname]
        else [])
      finishSetup c (if c.localFlag then "local" else "global") env evs

/-- The check callback installed by makeConfig in src/cli.js (lines 102 to
112): throws on global with local, then on web with with-token, otherwise
accepts. -/
def makeConfigCheck (c : Config) : Except String Bool :=
  if c.globalFlag && c.localFlag then
    .error "Arguments global and local are mutually exclusive"
  else if c.web && c.withToken then
    .error "Arguments web and with-token are mutually exclusive"
  else
    .ok true

/-- The whole CLI process: argument validation runs at parse time, before
main. Modelled from the spec for the front-end reaction: the argument parsing
front end (out of scope per the spec) prints a check error and exits 1
without invoking any external command; on success main runs. -/
def runCli (c : Config) (env : CliEnv) : MainResult :=
  match makeConfigCheck c with
  | .error _ => { exitCode := 1, events := [], git := env.git }
  | .ok _ => mainRun c env

/-! Shared concrete inputs for witnesses. -/

/-- A git world with an empty store and a git binary that accepts writes. -/
def emptyGitWorld : GitWorld :=
  { store := fun _ _ => none, failSet := fun _ _ _ => false, writeLog := [] }

/-- Behaviors where both identity queries succeed. -/
def ghEnvOk : GhEnv :=
  { userResult := ExecBehavior.closed "octocat" "" (some 0)
    emailsResult := ExecBehavior.closed "octocat@github.com" "" (some 0) }

/-- Behaviors where the username query fails with exit 1. -/
def ghEnvUserFail : GhEnv :=
  { userResult := ExecBehavior.closed "" "boom" (some 1)
    emailsResult := ExecBehavior.closed "octocat@github.com" "" (some 0) }

/-- Behaviors where the email query exits zero with an empty result. -/
def ghEnvNoPrimaryEmail : GhEnv :=
  { userResult := ExecBehavior.closed "octocat" "" (some 0)
    emailsResult := ExecBehavior.closed "" "" (some 0) }

/-! Claims. -/

/-- C1, counterexample: the claim quantifies over every AuthOptions record,
and the string fields are emitted verbatim as the values of the -h, -s and
--git-protocol options. With hostname set to the literal string --web
(reachable, for example through the GH_AUTH_HOSTNAME environment variable)
and withToken set, the constructed argument list does contain --web, so the
claim as stated is false. -/
theorem c1_token_mode_flags_counterexample :
    ({ hostname := "--web", scopes := "repo,workflow,user,read:org,gist",
       gitProtocol := "https", web := false, withToken := true,
       skipSshKey := false, insecureStorage := false,
       clipboard := false } : AuthOptions).withToken = true ∧
    "--web" ∈ buildLoginArgs
      { hostname := "--web", scopes := "repo,workflow,user,read:org,gist",
        gitProtocol := "https", web := false, withToken := true,
        skipSshKey := false, insecureStorage := false, clipboard := false } := by
  constructor
  · rfl
  · decide

/-- C1, amended: for every AuthOptions record whose string fields hostname,
scopes and gitProtocol are not themselves the literal strings --web or
--clipboard, (a) if withToken is set the constructed argument list contains
neither --web nor --clipboard, regardless of the web and clipboard fields,
and (b) if withToken is unset and web is set the list contains --web, and
contains --clipboard exactly when clipboard is set. -/
theorem c1_token_mode_flags (o : AuthOptions)
    (h1 : o.hostname ≠ "--web") (h2 : o.hostname ≠ "--clipboard")
    (h3 : o.scopes ≠ "--web") (h4 : o.scopes ≠ "--clipboard")
    (h5 : o.gitProtocol ≠ "--web") (h6 : o.gitProtocol ≠ "--clipboard") :
    (o.withToken = true →
      "--web" ∉ buildLoginArgs o ∧ "--clipboard" ∉ buildLoginArgs o) ∧
    (o.withToken = false → o.web = true →
      "--web" ∈ buildLoginArgs o ∧
      ("--clipboard" ∈ buildLoginArgs o ↔ o.clipboard = true)) := by
  have h1' : ¬ ("--web" = o.hostname) := fun h => h1 h.symm
  have h2' : ¬ ("--clipboard" = o.hostname) := fun h => h2 h.symm
  have h3' : ¬ ("--web" = o.scopes) := fun h => h3 h.symm
  have h4' : ¬ ("--clipboard" = o.scopes) := fun h => h4 h.symm
  have h5' : ¬ ("--web" = o.gitProtocol) := fun h => h5 h.symm
  have h6' : ¬ ("--clipboard" = o.gitProtocol) := fun h => h6 h.symm
  constructor
  · intro hw
    constructor <;>
      simp [buildLoginArgs, List.mem_append, mem_ite_nil, hw,
        h1', h2', h3', h4', h5', h6']
  · intro hw hweb
    constructor
    · simp [buildLoginArgs, List.mem_append, mem_ite_nil, hw, hweb,
        h1', h3', h5']
    · simp [buildLoginArgs, List.mem_append, mem_ite_nil, hw, hweb,
        h2', h4', h6']

/-- C1, witness: the amended statement evaluated at the default options
switched to token mode. -/
theorem c1_token_mode_flags_witness :
    "--web" ∉ buildLoginArgs { defaultAuthOptions with withToken := true } ∧
    "--clipboard" ∉ buildLoginArgs { defaultAuthOptions with withToken := true } :=
  (c1_token_mode_flags { defaultAuthOptions with withToken := true }
    (by decide) (by decide) (by decide) (by decide) (by decide) (by decide)).1 rfl

/-- C3: across the outcomes of the external auth status command named by the
claim (zero exit, non-zero exit, failure to spawn), isGhAuthenticated returns
true exactly on a zero exit and false otherwise; being a total function into
Bool, it never throws. -/
theorem c3_auth_status_outcomes :
    (∀ out err : String,
      isGhAuthenticated (ExecBehavior.closed out err (some 0)) = true) ∧
    (∀ (out err : String) (n : Nat), n ≠ 0 →
      isGhAuthenticated (ExecBehavior.closed out err (some n)) = false) ∧
    (∀ collected message : String,
      isGhAuthenticated (ExecBehavior.spawnError collected message) = false) := by
  refine ⟨fun out err => ?_, fun out err n hn => ?_, fun collected message => ?_⟩
  · simp [isGhAuthenticated, execCommand]
  · simp [isGhAuthenticated, execCommand, hn]
  · simp [isGhAuthenticated, execCommand]

/-- C3, witness: the non-zero-exit conjunct evaluated at exit code 1. -/
theorem c3_auth_status_outcomes_witness :
    (1 : Nat) ≠ 0 ∧
    isGhAuthenticated (ExecBehavior.closed "" "not logged in" (some 1)) = false :=
  ⟨by decide, c3_auth_status_outcomes.2.1 "" "not logged in" 1 (by decide)⟩

/-- C6: for every key and scope, getGitConfig on an unset key returns none;
being a total function into Option, it never throws, and the unset key is not
surfaced as an error. -/
theorem c6_get_config_unset (key scope : String) (w : GitWorld)
    (h : w.store (scopeFlagOf scope) key = none) :
    getGitConfig key scope w = none := by
  simp [getGitConfig, gitGet, h]

/-- C6, witness: reading user.name in the global scope of an empty store. -/
theorem c6_get_config_unset_witness :
    getGitConfig "user.name" "global" emptyGitWorld = none :=
  c6_get_config_unset "user.name" "global" emptyGitWorld rfl

/-- C7: runGhAuthLogin runs gh with the constructed argument list
interactively, injects exactly the string y newline into the child input
exactly when withToken is unset, and returns true exactly when the external
command exits zero. -/
theorem c7_login_interactive (o : AuthOptions) (beh : InteractiveBehavior) :
    (runGhAuthLogin o beh).2.command = "gh" ∧
    (runGhAuthLogin o beh).2.args = buildLoginArgs o ∧
    ((runGhAuthLogin o beh).2.input = some "y\n" ↔ o.withToken = false) ∧
    ((runGhAuthLogin o beh).1 = true ↔ execInteractiveExit beh = 0) := by
  refine ⟨rfl, rfl, ?_, ?_⟩
  · cases hw : o.withToken <;> simp [runGhAuthLogin, hw]
  · by_cases he : execInteractiveExit beh = 0 <;> simp [runGhAuthLogin, he]

/-- Helper: the combined fetch fails whenever either query fails. -/
theorem userInfo_error_of_query_error (env : GhEnv)
    (h : (∃ er, getGitHubUsername env = .error er) ∨
         (∃ er, getGitHubEmail env = .error er)) :
    (getGitHubUserInfo env).isOk = false := by
  cases hu : getGitHubUsername env with
  | error e => simp [getGitHubUserInfo, hu, Except.isOk, Except.toBool]
  | ok u =>
    cases he : getGitHubEmail env with
    | error e => simp [getGitHubUserInfo, hu, he, Except.isOk, Except.toBool]
    | ok em =>
      rcases h with ⟨er, h'⟩ | ⟨er, h'⟩
      · rw [hu] at h'; exact absurd h' (by simp)
      · rw [he] at h'; exact absurd h' (by simp)

/-- C5: (a) the username query propagates a command failure as an error built
from the command stderr; (b) so does the email query; (c) on a zero exit with
an empty result the email query fails with the no-primary-email message,
which is user-actionable (it tells the user to set a primary email in the
GitHub settings); (d) that message is distinct from every command-failure
message of the email query; (e) the combined fetch succeeds with the pair
exactly when both queries succeed; (f) it fails whenever either query
fails. -/
theorem c5_identity_fetch_errors :
    (∀ env : GhEnv, (execCommand env.userResult).exitCode ≠ 0 →
      getGitHubUsername env =
        .error ("Failed to get GitHub username: " ++ (execCommand env.userResult).stderr)) ∧
    (∀ env : GhEnv, (execCommand env.emailsResult).exitCode ≠ 0 →
      getGitHubEmail env =
        .error ("Failed to get GitHub email: " ++ (execCommand env.emailsResult).stderr)) ∧
    (∀ env : GhEnv, (execCommand env.emailsResult).exitCode = 0 →
      (execCommand env.emailsResult).stdout = "" →
      getGitHubEmail env = .error noPrimaryEmailMessage) ∧
    (∀ s : String, noPrimaryEmailMessage ≠ "Failed to get GitHub email: " ++ s) ∧
    (∀ (env : GhEnv) (u e : String),
      getGitHubUserInfo env = .ok { username := u, email := e } ↔
        getGitHubUsername env = .ok u ∧ getGitHubEmail env = .ok e) ∧
    (∀ env : GhEnv,
      ((∃ er, getGitHubUsername env = .error er) ∨
       (∃ er, getGitHubEmail env = .error er)) →
      (getGitHubUserInfo env).isOk = false) := by
  refine ⟨?_, ?_, ?_, ?_, ?_, userInfo_error_of_query_error⟩
  · intro env h
    simp [getGitHubUsername, h]
  · intro env h
    simp [getGitHubEmail, h]
  · intro env h h2
    simp [getGitHubEmail, h, h2]
  · intro s
    exact ne_lit_append s (by decide) rfl rfl
  · intro env u e
    cases hu : getGitHubUsername env <;> cases he : getGitHubEmail env <;>
      simp [getGitHubUserInfo, hu, he]

/-- C5, witness: the conjuncts evaluated at concrete behaviors: a failing
username command, an empty-result email command, and the combined fetch over
the failing username command. -/
theorem c5_identity_fetch_errors_witness :
    getGitHubUsername ghEnvUserFail = .error "Failed to get GitHub username: boom" ∧
    getGitHubEmail ghEnvNoPrimaryEmail = .error noPrimaryEmailMessage ∧
    noPrimaryEmailMessage ≠ "Failed to get GitHub email: boom" ∧
    (getGitHubUserInfo ghEnvUserFail).isOk = false := by
  refine ⟨?_, ?_, ?_, ?_⟩
  · exact c5_identity_fetch_errors.1 ghEnvUserFail (by decide)
  · exact c5_identity_fetch_errors.2.2.1 ghEnvNoPrimaryEmail (by decide) (by decide)
  · exact c5_identity_fetch_errors.2.2.2.1 "boom"
  · exact c5_identity_fetch_errors.2.2.2.2.2 ghEnvUserFail
      (Or.inl ⟨"Failed to get GitHub username: boom", rfl⟩)

/-- C4: for every scope, setupGitIdentity in dry-run mode returns the
identity fetched from the GitHub account and leaves the git world untouched:
no write is logged and subsequent getGitConfig reads of user.name and
user.email in that scope are unchanged. -/
theorem c4_dry_run_no_writes (scope : String) (env : GhEnv) (w : GitWorld)
    (ident : Identity) (h : getGitHubUserInfo env = .ok ident) :
    setupGitIdentity scope true env w = (.ok ident, w) ∧
    (setupGitIdentity scope true env w).2.writeLog = w.writeLog ∧
    getGitConfig "user.name" scope (setupGitIdentity scope true env w).2 =
      getGitConfig "user.name" scope w ∧
    getGitConfig "user.email" scope (setupGitIdentity scope true env w).2 =
      getGitConfig "user.email" scope w := by
  simp [setupGitIdentity, h]

/-- C4, witness: dry-run setup over successful queries and an empty store. -/
theorem c4_dry_run_no_writes_witness :
    setupGitIdentity "global" true ghEnvOk emptyGitWorld =
      (Except.ok { username := "octocat", email := "octocat@github.com" },
       emptyGitWorld) :=
  (c4_dry_run_no_writes "global" ghEnvOk emptyGitWorld
    { username := "octocat", email := "octocat@github.com" } rfl).1

/-- C10 (implicit): whichever query fails (command failure on either, or no
primary email), the combined fetch fails, and setupGitIdentity propagates
exactly that error while leaving the git world untouched: the write log and
the store are unchanged for every scope, dry-run and verbosity setting. -/
theorem c10_fetch_failure_no_writes :
    (∀ (scope : String) (dryRun : Bool) (env : GhEnv) (w : GitWorld) (e : String),
      getGitHubUserInfo env = .error e →
      setupGitIdentity scope dryRun env w = (.error e, w)) ∧
    (∀ env : GhEnv,
      ((∃ er, getGitHubUsername env = .error er) ∨
       (∃ er, getGitHubEmail env = .error er)) →
      (getGitHubUserInfo env).isOk = false) := by
  refine ⟨?_, userInfo_error_of_query_error⟩
  intro scope dryRun env w e h
  simp [setupGitIdentity, h]

/-- C10, witness: an account with no primary email, under a non-dry run in
the global scope over an empty store. -/
theorem c10_fetch_failure_no_writes_witness :
    setupGitIdentity "global" false ghEnvNoPrimaryEmail emptyGitWorld =
      (Except.error noPrimaryEmailMessage, emptyGitWorld) ∧
    (getGitHubUserInfo ghEnvNoPrimaryEmail).isOk = false :=
  ⟨c10_fetch_failure_no_writes.1 "global" false ghEnvNoPrimaryEmail emptyGitWorld
      noPrimaryEmailMessage rfl,
   c10_fetch_failure_no_writes.2 ghEnvNoPrimaryEmail (Or.inr ⟨_, rfl⟩)⟩

/-- C8: a successful non-dry-run setupGitIdentity followed by
verifyGitIdentity in the same scope returns exactly the identity that was
written; verifyGitIdentity takes no GhEnv, so it cannot query the external
auth account. -/
theorem c8_setup_verify_roundtrip (scope : String) (env : GhEnv)
    (w w2 : GitWorld) (ident : Identity)
    (h : setupGitIdentity scope false env w = (.ok ident, w2)) :
    verifyGitIdentity scope w2 =
      { username := some ident.username, email := some ident.email } := by
  cases hu : getGitHubUserInfo env with
  | error e => simp [setupGitIdentity, hu] at h
  | ok info =>
    by_cases hf1 : w.failSet (scopeFlagOf scope) "user.name" info.username
    · simp [setupGitIdentity, hu, setGitConfig, gitSet, hf1] at h
    · by_cases hf2 : w.failSet (scopeFlagOf scope) "user.email" info.email
      · simp [setupGitIdentity, hu, setGitConfig, gitSet, hf1, hf2] at h
      · simp [setupGitIdentity, hu, setGitConfig, gitSet, hf1, hf2] at h
        obtain ⟨hident, hw2⟩ := h
        subst hident
        subst hw2
        simp [verifyGitIdentity, getGitConfig, gitGet]

/-- C8, witness: a non-dry-run setup over successful queries and an empty
store, followed by a verify in the same scope. -/
theorem c8_setup_verify_roundtrip_witness :
    verifyGitIdentity "global"
        (setupGitIdentity "global" false ghEnvOk emptyGitWorld).2 =
      { username := some "octocat", email := some "octocat@github.com" } :=
  c8_setup_verify_roundtrip "global" ghEnvOk emptyGitWorld
    (setupGitIdentity "global" false ghEnvOk emptyGitWorld).2
    { username := "octocat", email := "octocat@github.com" }
    (Prod.ext rfl rfl)

/-- Concrete parsed configuration with no-auto-login set. -/
def cfgNoAuto : Config :=
  { globalFlag := false, localFlag := false, verbose := false, dryRun := false,
    verify := false, repair := false, noAutoLogin := true,
    hostname := "github.com", scopes := "repo,workflow,user,read:org,gist",
    gitProtocol := "https", web := true, withToken := false,
    skipSshKey := false, insecureStorage := false, clipboard := false }

/-- Concrete environment in which the auth status command exits 1. -/
def envUnauthed : CliEnv :=
  { authStatus := ExecBehavior.closed "" "not logged in" (some 1),
    login := InteractiveBehavior.closed (some 0),
    setupGitOk := true,
    gh := ghEnvOk,
    git := emptyGitWorld }

/-- C2: for every invocation whose auth status check runs (verify mode off)
and reports not authenticated, with repair or no-auto-login set, main exits
with code 1, never invokes the login command, and prints manual-recovery
instructions whose wording is distinct for the repair case versus the
no-auto-login case. -/
theorem c2_skip_auto_login (c : Config) (env : CliEnv)
    (hverify : c.verify = false)
    (hauth : isGhAuthenticated env.authStatus = false)
    (hskip : (c.repair || c.noAutoLogin) = true) :
    (mainRun c env).exitCode = 1 ∧
    (∀ call : InteractiveCall,
      Event.loginInvoked call ∉ (mainRun c env).events) ∧
    Event.errLine "GitHub CLI is not authenticated." ∈ (mainRun c env).events ∧
    "The --repair option requires existing authentication." ≠
      "Automatic login is disabled (--no-auto-login)." ∧
    (Event.errLine "The --repair option requires existing authentication." ∈
        (mainRun c env).events ↔ c.repair = true) ∧
    (Event.errLine "Automatic login is disabled (--no-auto-login)." ∈
        (mainRun c env).events ↔ c.repair = false) := by
  cases hr : c.repair with
  | true =>
    refine ⟨?_, ?_, ?_, by decide, ?_, ?_⟩ <;>
      simp [mainRun, hverify, hauth, hskip, hr]
  | false =>
    have hna : c.noAutoLogin = true := by simpa [hr] using hskip
    refine ⟨?_, ?_, ?_, by decide, ?_, ?_⟩ <;>
      simp [mainRun, hverify, hauth, hr, hna]

/-- C2, witness: not authenticated with no-auto-login set. -/
theorem c2_skip_auto_login_witness :
    (mainRun cfgNoAuto envUnauthed).exitCode = 1 ∧
    Event.errLine "Automatic login is disabled (--no-auto-login)." ∈
      (mainRun cfgNoAuto envUnauthed).events ∧
    Event.errLine "The --repair option requires existing authentication." ∉
      (mainRun cfgNoAuto envUnauthed).events := by
  have h := c2_skip_auto_login cfgNoAuto envUnauthed rfl rfl rfl
  exact ⟨h.1, h.2.2.2.2.2.mpr rfl,
    fun hm => absurd (h.2.2.2.2.1.mp hm) (by decide)⟩

/-- Concrete parsed configuration with both global and local set. -/
def cfgConflict : Config :=
  { globalFlag := true, localFlag := true, verbose := false, dryRun := false,
    verify := false, repair := false, noAutoLogin := false,
    hostname := "github.com", scopes := "repo,workflow,user,read:org,gist",
    gitProtocol := "https", web := true, withToken := false,
    skipSshKey := false, insecureStorage := false, clipboard := false }

/-- C9: for every argument vector with both global and local set, and for
every argument vector with both web and with-token set, the parse-time check
rejects the invocation with an error, the process exits 1, and no external
command is invoked (the event trace is empty). -/
theorem c9_flag_exclusions (c : Config) (env : CliEnv)
    (h : (c.globalFlag = true ∧ c.localFlag = true) ∨
         (c.web = true ∧ c.withToken = true)) :
    (makeConfigCheck c).isOk = false ∧
    (runCli c env).exitCode = 1 ∧
    (runCli c env).events = [] := by
  have herr : ∃ msg, makeConfigCheck c = .error msg := by
    rcases h with ⟨hg, hl⟩ | ⟨hw, ht⟩
    · exact ⟨"Arguments global and local are mutually exclusive",
        by simp [makeConfigCheck, hg, hl]⟩
    · by_cases hgl : (c.globalFlag && c.localFlag) = true
      · exact ⟨"Arguments global and local are mutually exclusive",
          by simp [makeConfigCheck, hgl]⟩
      · exact ⟨"Arguments web and with-token are mutually exclusive",
          by simp [makeConfigCheck, hgl, hw, ht]⟩
  obtain ⟨msg, hmsg⟩ := herr
  exact ⟨by simp [hmsg, Except.isOk, Except.toBool],
    by simp [runCli, hmsg], by simp [runCli, hmsg]⟩

/-- C9, witness: both global and local set. -/
theorem c9_flag_exclusions_witness :
    (makeConfigCheck cfgConflict).isOk = false ∧
    (runCli cfgConflict envUnauthed).exitCode = 1 ∧
    (runCli cfgConflict envUnauthed).events = [] :=
  c9_flag_exclusions cfgConflict envUnauthed (Or.inl ⟨rfl, rfl⟩)
